import Mathlib

/-!
Shallow embedding of the NRT (Numba runtime) memory-info allocator and
refcounting runtime from src/numba/core/runtime/nrt.cpp, together with
proofs about its specification.

Modelling conventions:
* Pointers are natural numbers; 0 plays the role of the C NULL pointer.
* Machine `size_t` values (refcounts, statistics counters, sizes) are
  modelled as `Nat`; none of the verified properties depends on 64-bit
  wrap-around.
* `TheMSys` (the global memory system) together with the heap of live
  `MemInfo` records, the byte memory and an event trace form an explicit
  state record `NRTState` that every operation threads.
* Function pointers are modelled semantically: the bound allocator carries
  the allocation behaviour as Lean functions plus numeric identities used
  for the pointer-equality comparison in `NRT_MemSys_set_allocator`.
* Destructor function pointers are modelled by the inductive `Dtor`
  (the runtime compares `mi->dtor` against `nrt_varsize_dtor` by identity),
  and the `void *dtor_info` slot by the inductive `DtorInfo` covering the
  ways the source stores data in it (a pointer, a size, or a secondary
  destructor function pointer).
* `abort()` via `nrt_fatal_error` and dereferencing a NULL `MemInfo*`
  (which the C source does on some allocation-failure paths) are modelled
  as an explicit `Crash` outcome in `Except Crash`.
* The C `assert(mi->refct > 0)` in acquire/release is modelled as active
  (debug semantics): violating it is a crash.
-/

/-- Raw byte memory: address to byte value. -/
def Mem : Type := Nat → Nat

/-- The bound system allocation functions (`TheMSys.allocator`).  The
`*Id` fields model the identity of the C function pointers (used by
`NRT_MemSys_set_allocator` for its pointer-equality test); `malloc` and
`realloc` model the behaviour (returning 0 models a NULL result). -/
structure AllocatorFns where
  mallocId : Nat
  reallocId : Nat
  freeId : Nat
  malloc : Nat → Nat
  realloc : Nat → Nat → Nat

/-- The global memory system `TheMSys`: shutdown flag, the four
statistics counters, and the bound allocator. -/
structure MemSys where
  shutting : Bool
  stats_alloc : Nat
  stats_free : Nat
  stats_mi_alloc : Nat
  stats_mi_free : Nat
  allocator : AllocatorFns

/-- A caller-supplied external allocator (struct NRT_ExternalAllocator):
malloc/realloc behaviours that receive the allocator's context word and
may read the current `MemSys` (the sample allocator in the source calls
back into `TheMSys.allocator`), plus the context word itself
(`opaque_data` in the C source). -/
structure NRT_ExternalAllocator where
  extMalloc : Nat → Nat → MemSys → Nat
  extRealloc : Nat → Nat → Nat → MemSys → Nat
  ctxData : Nat

/-- Identity of a destructor function pointer stored in `mi->dtor`. -/
inductive Dtor where
  | varsize
  | internalSafe
  | customSafe
  | manageMemory
  | custom (id : Nat)
deriving DecidableEq

/-- Contents of the `void *dtor_info` slot. -/
inductive DtorInfo where
  | null
  | ptr (p : Nat)
  | sizeVal (n : Nat)
  | dtorFn (id : Option Nat)
deriving DecidableEq

/-- The MemInfo record (struct MemInfo). -/
structure MemInfo where
  refct : Nat
  dtor : Option Dtor
  dtor_info : DtorInfo
  data : Nat
  size : Nat
  external_allocator : Option NRT_ExternalAllocator

/-- A default MemInfo value, used only as the `Option.getD` fallback in
statements that project out of a heap lookup. -/
def miDefault : MemInfo :=
  { refct := 0, dtor := none, dtor_info := DtorInfo.null, data := 0,
    size := 0, external_allocator := none }

/-- Observable events of a run: a handle's destructor being invoked by
`NRT_MemInfo_call_dtor`, a caller-supplied destructor function being
called, a `memset` debug fill, and a block being handed back to an
allocator (`external = true` for an external allocator's free). -/
inductive Event where
  | dtorInvoked (mi : Nat)
  | customDtor (id : Nat) (p : Nat)
  | fill (p : Nat) (v : Nat) (n : Nat)
  | freed (p : Nat) (external : Bool)
deriving DecidableEq

/-- The full runtime state. -/
structure NRTState where
  msys : MemSys
  heap : List (Nat × MemInfo)
  mem : Mem
  events : List Event

/-- Crash outcomes: `fatalError` models `nrt_fatal_error` (which calls
`abort()`), `nullDeref` models dereferencing a NULL `MemInfo*` or a
failed `assert`. -/
inductive Crash where
  | fatalError (msg : String)
  | nullDeref

/-- `sizeof(NRT_MemInfo)` on a 64-bit target: six 8-byte fields. -/
def sizeofMemInfo : Nat := 48

/-- Look up the MemInfo record at address `p`. -/
def heapLookup (st : NRTState) (p : Nat) : Option MemInfo :=
  (st.heap.find? (fun e => e.1 == p)).map (fun e => e.2)

/-- Store a MemInfo record at address `p` (overwriting any record there). -/
def heapSet (st : NRTState) (p : Nat) (mi : MemInfo) : NRTState :=
  { st with heap := (p, mi) :: st.heap.filter (fun e => !(e.1 == p)) }

/-- Emit an event. -/
def emitEvent (st : NRTState) (e : Event) : NRTState :=
  { st with events := st.events ++ [e] }

/-- `memset(p, v, n)`: fill `n` bytes starting at `p` with byte `v`
(also recorded as a `fill` event). -/
def memsetBytes (st : NRTState) (p v n : Nat) : NRTState :=
  { st with
    mem := fun a => if p ≤ a ∧ a < p + n then v else st.mem a,
    events := st.events ++ [Event.fill p v n] }

/-- NRT_Allocate_External: route the raw allocation through the external
allocator if one is given, otherwise through `TheMSys.allocator.malloc`;
the `stats_alloc` counter is incremented unconditionally (also when the
underlying malloc returned NULL). -/
def NRT_Allocate_External (size : Nat) (allocator : Option NRT_ExternalAllocator)
    (st : NRTState) : Nat × NRTState :=
  let ptr := match allocator with
    | some a => a.extMalloc size a.ctxData st.msys
    | none => st.msys.allocator.malloc size
  (ptr, { st with msys := { st.msys with stats_alloc := st.msys.stats_alloc + 1 } })

/-- NRT_Allocate. -/
def NRT_Allocate (size : Nat) (st : NRTState) : Nat × NRTState :=
  NRT_Allocate_External size none st

/-- NRT_Reallocate: calls `TheMSys.allocator.realloc`; touches no
statistics counter. -/
def NRT_Reallocate (ptr size : Nat) (st : NRTState) : Nat × NRTState :=
  (st.msys.allocator.realloc ptr size, st)

/-- NRT_Free: `TheMSys.allocator.free(ptr)` followed by `stats_free++`.
Freeing the block kills any MemInfo record living at that address. -/
def NRT_Free (ptr : Nat) (st : NRTState) : NRTState :=
  { st with
    heap := st.heap.filter (fun e => !(e.1 == ptr)),
    msys := { st.msys with stats_free := st.msys.stats_free + 1 },
    events := st.events ++ [Event.freed ptr false] }

/-- NRT_MemInfo_init: writes the six fields (refct starts at 1) and
increments `stats_mi_alloc`.  Writing through a NULL `mi` pointer is a
crash. -/
def NRT_MemInfo_init (mi data size : Nat) (dtor : Option Dtor) (info : DtorInfo)
    (ea : Option NRT_ExternalAllocator) (st : NRTState) : Except Crash NRTState :=
  if mi = 0 then Except.error Crash.nullDeref
  else
    Except.ok (heapSet
      { st with msys := { st.msys with stats_mi_alloc := st.msys.stats_mi_alloc + 1 } }
      mi
      { refct := 1, dtor := dtor, dtor_info := info, data := data, size := size,
        external_allocator := ea })

/-- NRT_MemInfo_new: allocate a bare MemInfo record (without checking the
allocation for NULL) and initialize it. -/
def NRT_MemInfo_new (data size : Nat) (dtor : Option Dtor) (info : DtorInfo)
    (st : NRTState) : Except Crash (Nat × NRTState) :=
  let r := NRT_Allocate sizeofMemInfo st
  (NRT_MemInfo_init r.1 data size dtor info none r.2).map (fun s => (r.1, s))

/-- nrt_allocate_meminfo_and_data: one block holding the MemInfo record
followed by the payload; returns (data pointer, MemInfo pointer, state).
When the underlying allocation fails (base = 0) the MemInfo pointer is 0
but the returned data pointer is `0 + sizeofMemInfo`, exactly as in the
C source, which performs the offset arithmetic unconditionally. -/
def nrt_allocate_meminfo_and_data (size : Nat)
    (allocator : Option NRT_ExternalAllocator) (st : NRTState) :
    Nat × Nat × NRTState :=
  let r := NRT_Allocate_External (sizeofMemInfo + size) allocator st
  (r.1 + sizeofMemInfo, r.1, r.2)

/-- NRT_MemInfo_alloc. -/
def NRT_MemInfo_alloc (size : Nat) (st : NRTState) : Except Crash (Nat × NRTState) :=
  let r := nrt_allocate_meminfo_and_data size none st
  (NRT_MemInfo_init r.2.1 r.1 size none DtorInfo.null none r.2.2).map
    (fun s => (r.2.1, s))

/-- NRT_MemInfo_alloc_external. -/
def NRT_MemInfo_alloc_external (size : Nat) (ea : NRT_ExternalAllocator)
    (st : NRTState) : Except Crash (Nat × NRTState) :=
  let r := nrt_allocate_meminfo_and_data size (some ea) st
  (NRT_MemInfo_init r.2.1 r.1 size none DtorInfo.null (some ea) r.2.2).map
    (fun s => (r.2.1, s))

/-- NRT_MemInfo_alloc_dtor_safe: fills the first `min size 256` payload
bytes with 0xCB and installs `nrt_internal_custom_dtor_safe` with the
caller's destructor (possibly NULL) in `dtor_info`. -/
def NRT_MemInfo_alloc_dtor_safe (size : Nat) (dtor : Option Nat) (st : NRTState) :
    Except Crash (Nat × NRTState) :=
  let r := nrt_allocate_meminfo_and_data size none st
  let st1 := memsetBytes r.2.2 r.1 0xCB (min size 256)
  (NRT_MemInfo_init r.2.1 r.1 size (some Dtor.customSafe) (DtorInfo.dtorFn dtor)
      none st1).map (fun s => (r.2.1, s))

/-- NRT_MemInfo_alloc_safe. -/
def NRT_MemInfo_alloc_safe (size : Nat) (st : NRTState) :
    Except Crash (Nat × NRTState) :=
  NRT_MemInfo_alloc_dtor_safe size none st

/-- nrt_allocate_meminfo_and_data_align: over-allocate by `2 * align`
payload bytes and move the data pointer forward to the next multiple of
`align`. -/
def nrt_allocate_meminfo_and_data_align (size align : Nat)
    (allocator : Option NRT_ExternalAllocator) (st : NRTState) :
    Nat × Nat × NRTState :=
  let r := nrt_allocate_meminfo_and_data (size + 2 * align) allocator st
  let remainder := r.1 % align
  let offset := if remainder = 0 then 0 else align - remainder
  (r.1 + offset, r.2.1, r.2.2)

/-- NRT_MemInfo_alloc_aligned. -/
def NRT_MemInfo_alloc_aligned (size align : Nat) (st : NRTState) :
    Except Crash (Nat × NRTState) :=
  let r := nrt_allocate_meminfo_and_data_align size align none st
  (NRT_MemInfo_init r.2.1 r.1 size none DtorInfo.null none r.2.2).map
    (fun s => (r.2.1, s))

/-- NRT_MemInfo_alloc_safe_aligned: aligned + 0xCB fill +
`nrt_internal_dtor_safe` with the size stashed in `dtor_info`. -/
def NRT_MemInfo_alloc_safe_aligned (size align : Nat) (st : NRTState) :
    Except Crash (Nat × NRTState) :=
  let r := nrt_allocate_meminfo_and_data_align size align none st
  let st1 := memsetBytes r.2.2 r.1 0xCB (min size 256)
  (NRT_MemInfo_init r.2.1 r.1 size (some Dtor.internalSafe) (DtorInfo.sizeVal size)
      none st1).map (fun s => (r.2.1, s))

/-- NRT_dealloc: hand the MemInfo block back to its originating
allocator; both routes increment `stats_free`. -/
def NRT_dealloc (p : Nat) (st : NRTState) : Except Crash NRTState :=
  match heapLookup st p with
  | none => Except.error Crash.nullDeref
  | some mi =>
    match mi.external_allocator with
    | some _ =>
      Except.ok
        { st with
          heap := st.heap.filter (fun e => !(e.1 == p)),
          msys := { st.msys with stats_free := st.msys.stats_free + 1 },
          events := st.events ++ [Event.freed p true] }
    | none => Except.ok (NRT_Free p st)

/-- NRT_MemInfo_destroy: NRT_dealloc then `stats_mi_free++`. -/
def NRT_MemInfo_destroy (p : Nat) (st : NRTState) : Except Crash NRTState :=
  (NRT_dealloc p st).map
    (fun s => { s with msys := { s.msys with stats_mi_free := s.msys.stats_mi_free + 1 } })

/-- Run the destructor function stored in `mi->dtor`
(`dtor(ptr, size, info)`), by identity of the known internal destructors:
* `nrt_varsize_dtor`: optional element destructor from `info`, then
  `NRT_Free(ptr)`;
* `nrt_internal_dtor_safe`: 0xDE fill of the first `min size 256` bytes;
* `nrt_internal_custom_dtor_safe`: optional custom destructor from
  `info`, then the 0xDE fill;
* `nrt_manage_memory_dtor`: call the managed destructor from `info`;
* a caller-supplied destructor: recorded as an event. -/
def runDtorFn (d : Dtor) (ptr size : Nat) (info : DtorInfo) (st : NRTState) :
    NRTState :=
  match d with
  | Dtor.varsize =>
    let st1 := match info with
      | DtorInfo.dtorFn (some e) => emitEvent st (Event.customDtor e ptr)
      | _ => st
    NRT_Free ptr st1
  | Dtor.internalSafe => memsetBytes st ptr 0xDE (min size 256)
  | Dtor.customSafe =>
    let st1 := match info with
      | DtorInfo.dtorFn (some e) => emitEvent st (Event.customDtor e ptr)
      | _ => st
    memsetBytes st1 ptr 0xDE (min size 256)
  | Dtor.manageMemory =>
    match info with
    | DtorInfo.dtorFn (some e) => emitEvent st (Event.customDtor e ptr)
    | _ => st
  | Dtor.custom id => emitEvent st (Event.customDtor id ptr)

/-- NRT_MemInfo_call_dtor: invoke the destructor unless there is none or
the system is shutting down, then destroy the record. -/
def NRT_MemInfo_call_dtor (p : Nat) (st : NRTState) : Except Crash NRTState :=
  match heapLookup st p with
  | none => Except.error Crash.nullDeref
  | some mi =>
    let st1 := match mi.dtor with
      | some d =>
        if st.msys.shutting then st
        else runDtorFn d mi.data mi.size mi.dtor_info (emitEvent st (Event.dtorInvoked p))
      | none => st
    NRT_MemInfo_destroy p st1

/-- NRT_MemInfo_acquire: `assert(refct > 0)` then atomic increment. -/
def NRT_MemInfo_acquire (p : Nat) (st : NRTState) : Except Crash NRTState :=
  match heapLookup st p with
  | none => Except.error Crash.nullDeref
  | some mi =>
    if mi.refct = 0 then Except.error (Crash.fatalError ("RefCt cannot be zero"))
    else Except.ok (heapSet st p { mi with refct := mi.refct + 1 })

/-- NRT_MemInfo_release: `assert(refct > 0)`, atomic decrement, and
destruction on the transition to zero. -/
def NRT_MemInfo_release (p : Nat) (st : NRTState) : Except Crash NRTState :=
  match heapLookup st p with
  | none => Except.error Crash.nullDeref
  | some mi =>
    if mi.refct = 0 then Except.error (Crash.fatalError ("RefCt cannot be 0"))
    else
      if mi.refct - 1 = 0 then
        NRT_MemInfo_call_dtor p (heapSet st p { mi with refct := mi.refct - 1 })
      else Except.ok (heapSet st p { mi with refct := mi.refct - 1 })

/-- NRT_MemInfo_data. -/
def NRT_MemInfo_data (p : Nat) (st : NRTState) : Option Nat :=
  (heapLookup st p).map (fun mi => mi.data)

/-- NRT_MemInfo_new_varsize: allocate the payload, bail out with NULL if
that fails, otherwise build a MemInfo with `nrt_varsize_dtor`. -/
def NRT_MemInfo_new_varsize (size : Nat) (st : NRTState) :
    Except Crash (Nat × NRTState) :=
  let r := NRT_Allocate size st
  if r.1 = 0 then Except.ok (0, r.2)
  else NRT_MemInfo_new r.1 size (some Dtor.varsize) DtorInfo.null r.2

/-- NRT_MemInfo_varsize_alloc: fatal if the handle was not built by the
varsize path; otherwise `mi->data = NRT_Allocate(size)`, returning NULL
(with `mi->data` now NULL) on failure, else also updating `mi->size`. -/
def NRT_MemInfo_varsize_alloc (p size : Nat) (st : NRTState) :
    Except Crash (Nat × NRTState) :=
  match heapLookup st p with
  | none => Except.error Crash.nullDeref
  | some mi =>
    if mi.dtor ≠ some Dtor.varsize then
      Except.error (Crash.fatalError
        ("ERROR: NRT_MemInfo_varsize_alloc called with a non varsize-allocated meminfo"))
    else
      let r := NRT_Allocate size st
      if r.1 = 0 then Except.ok (0, heapSet r.2 p { mi with data := r.1 })
      else Except.ok (r.1, heapSet r.2 p { mi with data := r.1, size := size })

/-- NRT_MemInfo_varsize_realloc: as varsize_alloc but through
`NRT_Reallocate` on the current data pointer. -/
def NRT_MemInfo_varsize_realloc (p size : Nat) (st : NRTState) :
    Except Crash (Nat × NRTState) :=
  match heapLookup st p with
  | none => Except.error Crash.nullDeref
  | some mi =>
    if mi.dtor ≠ some Dtor.varsize then
      Except.error (Crash.fatalError
        ("ERROR: NRT_MemInfo_varsize_realloc called with a non varsize-allocated meminfo"))
    else
      let r := NRT_Reallocate mi.data size st
      if r.1 = 0 then Except.ok (0, heapSet r.2 p { mi with data := r.1 })
      else Except.ok (r.1, heapSet r.2 p { mi with data := r.1, size := size })

/-- NRT_MemInfo_varsize_free: free `ptr` outright; null the handle's data
field only if `ptr` is its current payload. -/
def NRT_MemInfo_varsize_free (p ptr : Nat) (st : NRTState) :
    Except Crash NRTState :=
  match heapLookup st p with
  | none => Except.error Crash.nullDeref
  | some mi =>
    let st1 := NRT_Free ptr st
    if ptr = mi.data then Except.ok (heapSet st1 p { mi with data := 0 })
    else Except.ok st1

/-- nrt_manage_memory: wrap foreign memory with the managed destructor. -/
def nrt_manage_memory (data dtor : Nat) (st : NRTState) :
    Except Crash (Nat × NRTState) :=
  NRT_MemInfo_new data 0 (some Dtor.manageMemory) (DtorInfo.dtorFn (some dtor)) st

/-- NRT_MemSys_shutdown. -/
def NRT_MemSys_shutdown (st : NRTState) : NRTState :=
  { st with msys := { st.msys with shutting := true } }

/-- NRT_MemSys_set_allocator: fatal error when any of the three function
pointers differs from the current binding while the outstanding counts
are unbalanced; otherwise bind the new triple. -/
def NRT_MemSys_set_allocator (fns : AllocatorFns) (st : NRTState) :
    Except Crash NRTState :=
  if (fns.mallocId ≠ st.msys.allocator.mallocId ∨
      fns.reallocId ≠ st.msys.allocator.reallocId ∨
      fns.freeId ≠ st.msys.allocator.freeId) ∧
     (st.msys.stats_alloc ≠ st.msys.stats_free ∨
      st.msys.stats_mi_alloc ≠ st.msys.stats_mi_free) then
    Except.error (Crash.fatalError ("cannot change allocator while blocks are allocated"))
  else
    Except.ok { st with msys := { st.msys with allocator := fns } }

/-- The address of the static token object `sample_external_opaque_data`
that the sample external allocator expects as its context word. -/
def sampleCtxToken : Nat := 0xabacad

/-- sample_external_malloc: reject any context word other than the
expected token, otherwise defer to the bound system malloc. -/
def sample_external_malloc (size ctx : Nat) (msys : MemSys) : Nat :=
  if ctx ≠ sampleCtxToken then 0 else msys.allocator.malloc size

/-- sample_external_realloc. -/
def sample_external_realloc (ptr new_size ctx : Nat) (msys : MemSys) : Nat :=
  if ctx ≠ sampleCtxToken then 0 else msys.allocator.realloc ptr new_size

/-- sample_external_allocator. -/
def sample_external_allocator : NRT_ExternalAllocator :=
  { extMalloc := sample_external_malloc,
    extRealloc := sample_external_realloc,
    ctxData := sampleCtxToken }

/-!
## Helper lemmas and concrete states
-/

@[simp]
theorem heapLookup_heapSet_self (st : NRTState) (p : Nat) (mi : MemInfo) :
    heapLookup (heapSet st p mi) p = some mi := by
  simp [heapLookup, heapSet, List.find?]

@[simp]
theorem heapSet_msys (st : NRTState) (p : Nat) (mi : MemInfo) :
    (heapSet st p mi).msys = st.msys := rfl

@[simp]
theorem heapSet_events (st : NRTState) (p : Nat) (mi : MemInfo) :
    (heapSet st p mi).events = st.events := rfl

/-- A well-behaved system allocator used by concrete witness states. -/
def libcAllocFns : AllocatorFns :=
  { mallocId := 1, reallocId := 2, freeId := 3,
    malloc := fun _ => 1024, realloc := fun _ _ => 2048 }

/-- A system allocator whose malloc and realloc always fail (return NULL). -/
def failAllocFns : AllocatorFns :=
  { mallocId := 4, reallocId := 5, freeId := 6,
    malloc := fun _ => 0, realloc := fun _ _ => 0 }

/-- A fresh runtime state (all counters zero, empty heap, not shutting). -/
def freshSt : NRTState :=
  { msys := { shutting := false, stats_alloc := 0, stats_free := 0,
              stats_mi_alloc := 0, stats_mi_free := 0, allocator := libcAllocFns },
    heap := [], mem := fun _ => 0, events := [] }

/-- A fresh runtime state whose bound allocator always fails. -/
def failSt : NRTState :=
  { msys := { shutting := false, stats_alloc := 0, stats_free := 0,
              stats_mi_alloc := 0, stats_mi_free := 0, allocator := failAllocFns },
    heap := [], mem := fun _ => 0, events := [] }

/-- Extract the state from a successful run, falling back to `freshSt`. -/
def exOkSt (r : Except Crash NRTState) : NRTState :=
  match r with
  | Except.ok s => s
  | Except.error _ => freshSt

/-- Extract (result, state) from a successful run returning a pointer. -/
def exOkPair (r : Except Crash (Nat × NRTState)) : Nat × NRTState :=
  match r with
  | Except.ok s => s
  | Except.error _ => (0, freshSt)

/-!
## Claim C6: allocator rebinding safety
-/

/-- Claim C6: `NRT_MemSys_set_allocator` aborts the process (fatal error)
iff at least one of the three supplied functions differs from the current
binding and the outstanding counts are unbalanced; otherwise it swaps all
three function bindings. -/
theorem claim6_set_allocator_rebind (fns : AllocatorFns) (st : NRTState) :
    (NRT_MemSys_set_allocator fns st
        = Except.error (Crash.fatalError ("cannot change allocator while blocks are allocated"))
      ↔ ((fns.mallocId ≠ st.msys.allocator.mallocId ∨
          fns.reallocId ≠ st.msys.allocator.reallocId ∨
          fns.freeId ≠ st.msys.allocator.freeId) ∧
         (st.msys.stats_alloc ≠ st.msys.stats_free ∨
          st.msys.stats_mi_alloc ≠ st.msys.stats_mi_free))) ∧
    (¬ ((fns.mallocId ≠ st.msys.allocator.mallocId ∨
         fns.reallocId ≠ st.msys.allocator.reallocId ∨
         fns.freeId ≠ st.msys.allocator.freeId) ∧
        (st.msys.stats_alloc ≠ st.msys.stats_free ∨
         st.msys.stats_mi_alloc ≠ st.msys.stats_mi_free)) →
      NRT_MemSys_set_allocator fns st
        = Except.ok { st with msys := { st.msys with allocator := fns } }) := by
  constructor
  · constructor
    · intro h
      by_contra hc
      simp only [NRT_MemSys_set_allocator, if_neg hc] at h
      exact Except.noConfusion h
    · intro h
      simp only [NRT_MemSys_set_allocator, if_pos h]
  · intro h
    simp only [NRT_MemSys_set_allocator, if_neg h]

/-- Witness for C6: rebinding the same triple on an unbalanced state does
not abort and (trivially) swaps, while a different triple on the same
unbalanced state aborts. -/
theorem claim6_witness :
    NRT_MemSys_set_allocator failAllocFns
        { freshSt with msys := { freshSt.msys with stats_alloc := 7, allocator := failAllocFns } }
      = Except.ok { freshSt with msys := { freshSt.msys with stats_alloc := 7, allocator := failAllocFns } } ∧
    NRT_MemSys_set_allocator libcAllocFns
        { freshSt with msys := { freshSt.msys with stats_alloc := 7, allocator := failAllocFns } }
      = Except.error (Crash.fatalError ("cannot change allocator while blocks are allocated")) := by
  constructor
  · exact (claim6_set_allocator_rebind failAllocFns _).2 (by decide)
  · exact (claim6_set_allocator_rebind libcAllocFns _).1.2 (by decide)

/-!
## Claim C7: varsize operations on non-varsize handles are fatal
-/

/-- Claim C7: calling a variable-size resize operation (`varsize_alloc`
or `varsize_realloc`) on a handle whose destructor is not the internal
varsize destructor is a fatal error (process abort), not a recoverable
condition. -/
theorem claim7_varsize_requires_varsize_handle (p s s2 : Nat) (st : NRTState)
    (mi : MemInfo) (hm : heapLookup st p = some mi)
    (hd : mi.dtor ≠ some Dtor.varsize) :
    NRT_MemInfo_varsize_alloc p s st
      = Except.error (Crash.fatalError
          ("ERROR: NRT_MemInfo_varsize_alloc called with a non varsize-allocated meminfo")) ∧
    NRT_MemInfo_varsize_realloc p s2 st
      = Except.error (Crash.fatalError
          ("ERROR: NRT_MemInfo_varsize_realloc called with a non varsize-allocated meminfo")) := by
  constructor
  · simp only [NRT_MemInfo_varsize_alloc, hm, if_pos hd]
  · simp only [NRT_MemInfo_varsize_realloc, hm, if_pos hd]

/-- A plain (non-varsize) handle at address 100 used by witnesses. -/
def plainMi : MemInfo :=
  { refct := 1, dtor := none, dtor_info := DtorInfo.null, data := 500, size := 16,
    external_allocator := none }

/-- A state holding the plain handle at address 100. -/
def plainHandleSt : NRTState := { freshSt with heap := [(100, plainMi)] }

/-- Witness for C7: resizing the plain handle at address 100 aborts. -/
theorem claim7_witness :
    NRT_MemInfo_varsize_alloc 100 64 plainHandleSt
      = Except.error (Crash.fatalError
          ("ERROR: NRT_MemInfo_varsize_alloc called with a non varsize-allocated meminfo")) ∧
    NRT_MemInfo_varsize_realloc 100 64 plainHandleSt
      = Except.error (Crash.fatalError
          ("ERROR: NRT_MemInfo_varsize_realloc called with a non varsize-allocated meminfo")) :=
  claim7_varsize_requires_varsize_handle 100 64 64 plainHandleSt plainMi (by rfl)
    (by simp [plainMi])

/-!
## Claim C2 (corrected): allocation-failure behaviour
-/

/-- Counterexample to claim C2 as stated: with an always-failing system
allocator, `NRT_MemInfo_new_varsize` does return a NULL handle, but the
global bytes-allocated counter is nevertheless incremented for the failed
attempt; and the non-checking variant `NRT_MemInfo_alloc` does not return
a NULL handle at all — it dereferences the NULL MemInfo pointer. -/
theorem claim2_counterexample :
    (exOkPair (NRT_MemInfo_new_varsize 16 failSt)).1 = 0 ∧
    (exOkPair (NRT_MemInfo_new_varsize 16 failSt)).2.msys.stats_alloc = 1 ∧
    failSt.msys.stats_alloc = 0 ∧
    NRT_MemInfo_alloc 16 failSt = Except.error Crash.nullDeref :=
  ⟨rfl, rfl, rfl, rfl⟩

/-- Claim C2 (amended): if the underlying allocate call returns NULL, the
null-checking variable-size constructor returns a NULL handle, publishes
no handle (heap unchanged), and leaves the handles-allocated counter
untouched — but the bytes-allocated counter is incremented even for the
failed attempt. -/
theorem claim2_alloc_failure_amended (s : Nat) (st : NRTState)
    (hf : st.msys.allocator.malloc s = 0) :
    NRT_MemInfo_new_varsize s st
      = Except.ok (0,
          { st with msys := { st.msys with stats_alloc := st.msys.stats_alloc + 1 } }) := by
  simp [NRT_MemInfo_new_varsize, NRT_Allocate, NRT_Allocate_External, hf]

/-- Witness for the amended C2 at a concrete failing state. -/
theorem claim2_witness :
    NRT_MemInfo_new_varsize 16 failSt
      = Except.ok (0,
          { failSt with msys := { failSt.msys with stats_alloc := failSt.msys.stats_alloc + 1 } }) :=
  claim2_alloc_failure_amended 16 failSt rfl

/-!
## Claim C3 (corrected): varsize resize failure
-/

/-- A variable-size handle (data pointer 500, size 16) at address 100. -/
def varsizeMi : MemInfo :=
  { refct := 1, dtor := some Dtor.varsize, dtor_info := DtorInfo.null, data := 500,
    size := 16, external_allocator := none }

/-- A state holding the varsize handle at address 100, with an
always-failing system allocator. -/
def varsizeFailSt : NRTState := { failSt with heap := [(100, varsizeMi)] }

/-- Counterexample to claim C3 as stated: on allocation failure
`NRT_MemInfo_varsize_alloc` returns NULL but does not leave the handle's
prior data pointer (500) unchanged — it overwrites it with NULL. -/
theorem claim3_counterexample :
    (exOkPair (NRT_MemInfo_varsize_alloc 100 64 varsizeFailSt)).1 = 0 ∧
    ((heapLookup (exOkPair (NRT_MemInfo_varsize_alloc 100 64 varsizeFailSt)).2 100).getD
        miDefault).data = 0 ∧
    ((heapLookup varsizeFailSt 100).getD miDefault).data = 500 :=
  ⟨rfl, rfl, rfl⟩

/-- Claim C3 (amended): for a variable-size handle, if the underlying
allocation fails during `varsize_alloc`, the operation returns NULL and
the caller still holds a valid, non-freed handle with its refcount and
size intact — but the handle's data pointer is overwritten with NULL
(not left at its prior value). -/
theorem claim3_varsize_alloc_failure_amended (p s : Nat) (st : NRTState)
    (mi : MemInfo) (hm : heapLookup st p = some mi)
    (hd : mi.dtor = some Dtor.varsize)
    (hf : st.msys.allocator.malloc s = 0) :
    NRT_MemInfo_varsize_alloc p s st
      = Except.ok (0, heapSet
          { st with msys := { st.msys with stats_alloc := st.msys.stats_alloc + 1 } }
          p { mi with data := 0 }) := by
  simp [NRT_MemInfo_varsize_alloc, hm, hd, NRT_Allocate, NRT_Allocate_External, hf]

/-- Witness for the amended C3 at the concrete failing state. -/
theorem claim3_witness :
    NRT_MemInfo_varsize_alloc 100 64 varsizeFailSt
      = Except.ok (0, heapSet
          { varsizeFailSt with msys := { varsizeFailSt.msys with
              stats_alloc := varsizeFailSt.msys.stats_alloc + 1 } }
          100 { varsizeMi with data := 0 }) :=
  claim3_varsize_alloc_failure_amended 100 64 varsizeFailSt varsizeMi rfl rfl rfl

/-!
## Claim C4 (corrected): external allocator with token check
-/

/-- Counterexample to claim C4 as stated: through the sample external
allocator, allocation with the correct token succeeds and with a
mismatched token yields NULL, but the global bytes-allocated counter is
incremented (from 0 to 1) in both cases, so the global allocator's
counters are touched. -/
theorem claim4_counterexample :
    (exOkPair (NRT_MemInfo_alloc_external 16 sample_external_allocator freshSt)).1 = 1024 ∧
    (exOkPair (NRT_MemInfo_alloc_external 16 sample_external_allocator freshSt)).2.msys.stats_alloc = 1 ∧
    (NRT_Allocate_External 16 (some { sample_external_allocator with ctxData := 9 }) freshSt).1 = 0 ∧
    (NRT_Allocate_External 16 (some { sample_external_allocator with ctxData := 9 }) freshSt).2.msys.stats_alloc = 1 ∧
    freshSt.msys.stats_alloc = 0 :=
  ⟨rfl, rfl, rfl, rfl, rfl⟩

/-- Claim C4 (amended): through the sample external allocator (whose
malloc rejects any context token other than its expected one), handle
allocation with the correct token succeeds (publishing a fresh handle
with refcount 1 that records the external allocator), and a raw
allocation with a mismatched token returns NULL; the global
bytes-allocated counter is incremented in both cases (the global
allocator's malloc is not invoked for the mismatched attempt). -/
theorem claim4_external_token_amended (s bad : Nat) (st : NRTState)
    (hb : st.msys.allocator.malloc (sizeofMemInfo + s) ≠ 0)
    (hbad : bad ≠ sampleCtxToken) :
    NRT_MemInfo_alloc_external s sample_external_allocator st
      = Except.ok (st.msys.allocator.malloc (sizeofMemInfo + s),
          heapSet
            { st with msys := { st.msys with
                stats_alloc := st.msys.stats_alloc + 1,
                stats_mi_alloc := st.msys.stats_mi_alloc + 1 } }
            (st.msys.allocator.malloc (sizeofMemInfo + s))
            { refct := 1, dtor := none, dtor_info := DtorInfo.null,
              data := st.msys.allocator.malloc (sizeofMemInfo + s) + sizeofMemInfo,
              size := s, external_allocator := some sample_external_allocator }) ∧
    NRT_Allocate_External s (some { sample_external_allocator with ctxData := bad }) st
      = (0, { st with msys := { st.msys with stats_alloc := st.msys.stats_alloc + 1 } }) := by
  constructor
  · simp [NRT_MemInfo_alloc_external, nrt_allocate_meminfo_and_data,
      NRT_Allocate_External, sample_external_allocator, sample_external_malloc,
      NRT_MemInfo_init, hb]
    exact rfl
  · simp [NRT_Allocate_External, sample_external_allocator, sample_external_malloc, hbad]

/-- Witness for the amended C4 at the fresh concrete state. -/
theorem claim4_witness :
    NRT_MemInfo_alloc_external 16 sample_external_allocator freshSt
      = Except.ok (freshSt.msys.allocator.malloc (sizeofMemInfo + 16),
          heapSet
            { freshSt with msys := { freshSt.msys with
                stats_alloc := freshSt.msys.stats_alloc + 1,
                stats_mi_alloc := freshSt.msys.stats_mi_alloc + 1 } }
            (freshSt.msys.allocator.malloc (sizeofMemInfo + 16))
            { refct := 1, dtor := none, dtor_info := DtorInfo.null,
              data := freshSt.msys.allocator.malloc (sizeofMemInfo + 16) + sizeofMemInfo,
              size := 16, external_allocator := some sample_external_allocator }) ∧
    NRT_Allocate_External 16 (some { sample_external_allocator with ctxData := 9 }) freshSt
      = (0, { freshSt with msys := { freshSt.msys with
          stats_alloc := freshSt.msys.stats_alloc + 1 } }) :=
  claim4_external_token_amended 16 9 freshSt (by decide) (by decide)

/-!
## Claim C8: shutdown suppresses destructors but not reclamation
-/

theorem find?_filter_ne_none (l : List (Nat × MemInfo)) (p : Nat) :
    (l.filter (fun e => !(e.1 == p))).find? (fun e => e.1 == p) = none := by
  rw [List.find?_eq_none]
  intro x hx
  have h2 := (List.mem_filter.mp hx).2
  simp only [Bool.not_eq_eq_eq_not, Bool.not_true, beq_eq_false_iff_ne] at h2
  simp [h2]

theorem heapLookup_filter_self (m : MemSys) (l : List (Nat × MemInfo)) (me : Mem)
    (ev : List Event) (p : Nat) :
    heapLookup
      { msys := m, heap := l.filter (fun e => !(e.1 == p)), mem := me, events := ev }
      p = none := by
  simp [heapLookup, find?_filter_ne_none]

/-- Under shutdown, `NRT_MemInfo_call_dtor` never runs the destructor:
it goes straight to `NRT_MemInfo_destroy`. -/
theorem call_dtor_shutting (p : Nat) (st : NRTState) (mi : MemInfo)
    (hm : heapLookup st p = some mi) (hsh : st.msys.shutting = true) :
    NRT_MemInfo_call_dtor p st = NRT_MemInfo_destroy p st := by
  simp only [NRT_MemInfo_call_dtor, hm]
  cases hdt : mi.dtor with
  | none => rfl
  | some d => simp [hsh]

/-- `NRT_MemInfo_destroy` on a live record: removes it from the heap,
increments both freed counters, and emits a `freed` event routed by the
record's external allocator. -/
theorem destroy_of_lookup (p : Nat) (st : NRTState) (mi : MemInfo)
    (hm : heapLookup st p = some mi) :
    NRT_MemInfo_destroy p st = Except.ok
      { msys :=
          { st.msys with
            stats_free := st.msys.stats_free + 1,
            stats_mi_free := st.msys.stats_mi_free + 1 },
        heap := st.heap.filter (fun e => !(e.1 == p)),
        mem := st.mem,
        events := st.events ++ [Event.freed p mi.external_allocator.isSome] } := by
  simp only [NRT_MemInfo_destroy, NRT_dealloc, hm]
  cases hext : mi.external_allocator with
  | none => simp [NRT_Free, Except.map]
  | some ea => simp [Except.map]

/-- Claim C8: after shutdown, release-to-zero on any handle skips the
attached destructor (no destructor-invocation event and no destructor
side effects appear in the trace), but still returns the backing storage
to its originating allocator (the freed event routes by whether the
handle has an external allocator) and still increments both freed
counters. -/
theorem claim8_shutdown_release_to_zero (p : Nat) (st st' : NRTState)
    (mi : MemInfo) (hm : heapLookup st p = some mi) (h1 : mi.refct = 1)
    (hsh : st.msys.shutting = true)
    (hrun : NRT_MemInfo_release p st = Except.ok st') :
    heapLookup st' p = none ∧
    st'.msys.stats_free = st.msys.stats_free + 1 ∧
    st'.msys.stats_mi_free = st.msys.stats_mi_free + 1 ∧
    st'.events = st.events ++ [Event.freed p mi.external_allocator.isSome] := by
  simp only [NRT_MemInfo_release, hm, h1] at hrun
  norm_num at hrun
  have hm0 : heapLookup (heapSet st p { mi with refct := 0 }) p
      = some { mi with refct := 0 } := heapLookup_heapSet_self st p _
  rw [call_dtor_shutting p _ _ hm0 hsh, destroy_of_lookup p _ _ hm0,
    Except.ok.injEq] at hrun
  subst hrun
  exact ⟨heapLookup_filter_self _ _ _ _ p, rfl, rfl, rfl⟩

/-- A handle with refcount 1 and an ordinary custom destructor, used by
the C8 witness. -/
def c8Mi : MemInfo :=
  { refct := 1, dtor := some (Dtor.custom 7), dtor_info := DtorInfo.null,
    data := 148, size := 16, external_allocator := none }

/-- A shutting-down state holding that handle at address 100. -/
def shutSt : NRTState :=
  { freshSt with
    msys := { freshSt.msys with shutting := true },
    heap := [(100, c8Mi)] }

/-- The state after releasing the handle at address 100 under shutdown. -/
def c8Final : NRTState := exOkSt (NRT_MemInfo_release 100 shutSt)

/-- Witness for C8 at the concrete shutting-down state. -/
theorem claim8_witness :
    heapLookup c8Final 100 = none ∧
    c8Final.msys.stats_free = shutSt.msys.stats_free + 1 ∧
    c8Final.msys.stats_mi_free = shutSt.msys.stats_mi_free + 1 ∧
    c8Final.events = shutSt.events ++ [Event.freed 100 c8Mi.external_allocator.isSome] :=
  claim8_shutdown_release_to_zero 100 shutSt c8Final c8Mi (by rfl) (by rfl)
    (by rfl) (by rfl)

/-!
## Claim C10: aligned allocation
-/

theorem aligned_add_offset (x align : Nat) (h : 0 < align) :
    (x + (if x % align = 0 then 0 else align - x % align)) % align = 0 := by
  rcases Nat.eq_zero_or_pos (x % align) with hr | hr
  · simp [hr]
  · have hrlt : x % align < align := Nat.mod_lt x h
    rw [if_neg (Nat.pos_iff_ne_zero.mp hr)]
    have hd := Nat.div_add_mod x align
    set A := align * (x / align) with hA
    have h2 : x + (align - x % align) = A + align := by omega
    rw [h2, hA, ← Nat.mul_succ, Nat.mul_mod_right]

theorem aligned_offset_lt (x align : Nat) (h : 0 < align) :
    (if x % align = 0 then 0 else align - x % align) < align := by
  rcases Nat.eq_zero_or_pos (x % align) with hr | hr
  · simp [hr, h]
  · rw [if_neg (Nat.pos_iff_ne_zero.mp hr)]
    omega

theorem aligned_offset_least (x align o : Nat) (h : 0 < align)
    (ho : o < (if x % align = 0 then 0 else align - x % align)) :
    (x + o) % align ≠ 0 := by
  rcases Nat.eq_zero_or_pos (x % align) with hr | hr
  · rw [if_pos hr] at ho
    omega
  · rw [if_neg (Nat.pos_iff_ne_zero.mp hr)] at ho
    have hrlt : x % align < align := Nat.mod_lt x h
    have hd := Nat.div_add_mod x align
    set A := align * (x / align) with hA
    have h2 : x + o = A + (x % align + o) := by omega
    rw [h2, hA, Nat.mul_add_mod, Nat.mod_eq_of_lt (by omega)]
    omega

/-- Claim C10: for every requested size and power-of-two alignment, a
successful aligned allocation produces a handle whose data pointer is a
multiple of the alignment; the block is over-allocated by `2 * align`
payload bytes (the underlying malloc is invoked at
`sizeofMemInfo + (size + 2 * align)`), and the data pointer sits at the
smallest forward offset from the payload base that achieves the
alignment. -/
theorem claim10_aligned_data_pointer (s align k : Nat) (st0 st1 : NRTState)
    (mi : Nat) (hk : align = 2 ^ k)
    (halloc : NRT_MemInfo_alloc_aligned s align st0 = Except.ok (mi, st1)) :
    ((heapLookup st1 mi).getD miDefault).data % align = 0 ∧
    (∃ off, off < align ∧
      ((heapLookup st1 mi).getD miDefault).data
        = st0.msys.allocator.malloc (sizeofMemInfo + (s + 2 * align))
            + sizeofMemInfo + off ∧
      ∀ o, o < off →
        (st0.msys.allocator.malloc (sizeofMemInfo + (s + 2 * align))
            + sizeofMemInfo + o) % align ≠ 0) := by
  have hpos : 0 < align := by
    rw [hk]
    exact pow_pos (by norm_num) k
  simp only [NRT_MemInfo_alloc_aligned, nrt_allocate_meminfo_and_data_align,
    nrt_allocate_meminfo_and_data, NRT_Allocate_External, NRT_MemInfo_init] at halloc
  by_cases hb : st0.msys.allocator.malloc (sizeofMemInfo + (s + 2 * align)) = 0
  · rw [if_pos hb] at halloc
    exact absurd halloc (by simp [Except.map])
  · rw [if_neg hb] at halloc
    simp only [Except.map] at halloc
    rw [Except.ok.injEq, Prod.mk.injEq] at halloc
    obtain ⟨h1, h2⟩ := halloc
    subst h1
    subst h2
    rw [heapLookup_heapSet_self, Option.getD_some]
    refine ⟨aligned_add_offset _ align hpos,
      ⟨_, aligned_offset_lt _ align hpos, rfl,
        fun o ho => aligned_offset_least _ align o hpos ho⟩⟩

/-- The result of a concrete aligned allocation (size 5, align 8). -/
def c10Res : Nat × NRTState := exOkPair (NRT_MemInfo_alloc_aligned 5 8 freshSt)

/-- Witness for C10: the concrete aligned allocation yields a data
pointer that is a multiple of 8. -/
theorem claim10_witness :
    ((heapLookup c10Res.2 c10Res.1).getD miDefault).data % 8 = 0 :=
  (claim10_aligned_data_pointer 5 8 3 freshSt c10Res.2 c10Res.1 (by rfl) (by rfl)).1

/-!
## Claim C9: safe-variant fill patterns and custom-destructor ordering
-/

@[simp]
theorem memsetBytes_msys (st : NRTState) (p v n : Nat) :
    (memsetBytes st p v n).msys = st.msys := rfl

@[simp]
theorem emitEvent_msys (st : NRTState) (e : Event) :
    (emitEvent st e).msys = st.msys := rfl

@[simp]
theorem heapLookup_memsetBytes (st : NRTState) (p v n q : Nat) :
    heapLookup (memsetBytes st p v n) q = heapLookup st q := rfl

@[simp]
theorem heapLookup_emitEvent (st : NRTState) (e : Event) (q : Nat) :
    heapLookup (emitEvent st e) q = heapLookup st q := rfl

@[simp]
theorem heapLookup_mk (m : MemSys) (h : List (Nat × MemInfo)) (me : Mem)
    (ev : List Event) (p : Nat) :
    heapLookup { msys := m, heap := h, mem := me, events := ev } p
      = (h.find? (fun e => e.1 == p)).map (fun e => e.2) := rfl

@[simp]
theorem heapSet_heap (st : NRTState) (p : Nat) (mi : MemInfo) :
    (heapSet st p mi).heap = (p, mi) :: st.heap.filter (fun e => !(e.1 == p)) := rfl

@[simp]
theorem emitEvent_heap (st : NRTState) (e : Event) :
    (emitEvent st e).heap = st.heap := rfl

@[simp]
theorem memsetBytes_heap (st : NRTState) (p v n : Nat) :
    (memsetBytes st p v n).heap = st.heap := rfl

/-- `nrt_internal_custom_dtor_safe`: the optional caller-supplied
destructor runs first, then the 0xDE fill of the first
`min size 256` bytes. -/
theorem runDtorFn_customSafe (ptr size : Nat) (dOpt : Option Nat) (st : NRTState) :
    runDtorFn Dtor.customSafe ptr size (DtorInfo.dtorFn dOpt) st
      = memsetBytes
          { st with events := st.events ++
              (match dOpt with
               | some e => [Event.customDtor e ptr]
               | none => []) }
          ptr 0xDE (min size 256) := by
  cases dOpt with
  | none => simp [runDtorFn]
  | some e => simp [runDtorFn, emitEvent]

/-- Claim C9: for a safe-variant handle of size `s` (with an optional
caller-supplied custom destructor): immediately after allocation the
first `min s 256` payload bytes all equal the creation pattern 0xCB; on
the destroying release the custom destructor (if any) runs first, then
the same byte range is overwritten with the destruction pattern 0xDE,
and afterwards those bytes all equal 0xDE. -/
theorem claim9_safe_fill_law (s : Nat) (dOpt : Option Nat)
    (st0 st1 st2 : NRTState) (mi : Nat)
    (hsh : st0.msys.shutting = false)
    (halloc : NRT_MemInfo_alloc_dtor_safe s dOpt st0 = Except.ok (mi, st1))
    (hrel : NRT_MemInfo_release mi st1 = Except.ok st2) :
    (∀ i, i < min s 256 → st1.mem (mi + sizeofMemInfo + i) = 0xCB) ∧
    (∀ i, i < min s 256 → st2.mem (mi + sizeofMemInfo + i) = 0xDE) ∧
    st2.events = st1.events ++
      ([Event.dtorInvoked mi] ++
       (match dOpt with
        | some dId => [Event.customDtor dId (mi + sizeofMemInfo)]
        | none => []) ++
       [Event.fill (mi + sizeofMemInfo) 0xDE (min s 256),
        Event.freed mi false]) := by
  simp only [NRT_MemInfo_alloc_dtor_safe, nrt_allocate_meminfo_and_data,
    NRT_Allocate_External, NRT_MemInfo_init] at halloc
  by_cases hb : st0.msys.allocator.malloc (sizeofMemInfo + s) = 0
  · rw [if_pos hb] at halloc
    exact absurd halloc (by simp [Except.map])
  · rw [if_neg hb] at halloc
    simp only [Except.map] at halloc
    rw [Except.ok.injEq, Prod.mk.injEq] at halloc
    obtain ⟨h1, h2⟩ := halloc
    subst h1
    subst h2
    simp only [NRT_MemInfo_release, heapLookup_heapSet_self] at hrel
    norm_num at hrel
    rcases dOpt with _ | dId <;>
    · simp [NRT_MemInfo_call_dtor, hsh, runDtorFn, emitEvent, destroy_of_lookup,
        Except.ok.injEq] at hrel
      subst hrel
      refine ⟨?_, ?_, ?_⟩
      · intro i hi
        simp only [heapSet, memsetBytes]
        rw [if_pos (by omega)]
      · intro i hi
        simp only [heapSet, memsetBytes, emitEvent]
        rw [if_pos (by omega)]
      · simp [heapSet, memsetBytes, emitEvent, List.append_assoc]

/-- Concrete safe allocation with custom destructor id 3 (size 8). -/
def c9Res : Nat × NRTState := exOkPair (NRT_MemInfo_alloc_dtor_safe 8 (some 3) freshSt)

/-- State after the destroying release of that safe handle. -/
def c9St2 : NRTState := exOkSt (NRT_MemInfo_release c9Res.1 c9Res.2)

/-- Witness for C9: concrete 0xCB byte after allocation, 0xDE byte after
destruction, and the custom destructor event strictly before the 0xDE
fill event. -/
theorem claim9_witness :
    c9Res.2.mem (c9Res.1 + sizeofMemInfo + 0) = 0xCB ∧
    c9St2.mem (c9Res.1 + sizeofMemInfo + 7) = 0xDE ∧
    c9St2.events = c9Res.2.events ++
      ([Event.dtorInvoked c9Res.1] ++ [Event.customDtor 3 (c9Res.1 + sizeofMemInfo)] ++
       [Event.fill (c9Res.1 + sizeofMemInfo) 0xDE (min 8 256),
        Event.freed c9Res.1 false]) := by
  have h := claim9_safe_fill_law 8 (some 3) freshSt c9Res.2 c9St2 c9Res.1
    (by rfl) (by rfl) (by rfl)
  exact ⟨h.1 0 (by norm_num), h.2.1 7 (by norm_num), h.2.2⟩

/-!
## Claim C1: refcount lifecycle over acquire/release traces
-/

/-- An acquire/release operation on a fixed handle. -/
inductive RefOp where
  | acq
  | rel
deriving DecidableEq

/-- Run one acquire/release operation on the handle at address `p`. -/
def runRefOp (p : Nat) (op : RefOp) (st : NRTState) : Except Crash NRTState :=
  match op with
  | RefOp.acq => NRT_MemInfo_acquire p st
  | RefOp.rel => NRT_MemInfo_release p st

/-- Run a list of acquire/release operations on the handle at `p`. -/
def runRefOps (p : Nat) : List RefOp → NRTState → Except Crash NRTState
  | [], st => Except.ok st
  | op :: ops, st =>
    match runRefOp p op st with
    | Except.error e => Except.error e
    | Except.ok st1 => runRefOps p ops st1

/-- Number of acquires in a trace. -/
def nAcq : List RefOp → Nat
  | [] => 0
  | RefOp.acq :: ops => nAcq ops + 1
  | RefOp.rel :: ops => nAcq ops

/-- Number of releases in a trace. -/
def nRel : List RefOp → Nat
  | [] => 0
  | RefOp.acq :: ops => nRel ops
  | RefOp.rel :: ops => nRel ops + 1

/-- Number of destructor invocations recorded for the handle at `p`. -/
def dtorCount (p : Nat) : List Event → Nat
  | [] => 0
  | Event.dtorInvoked q :: es => (if q = p then 1 else 0) + dtorCount p es
  | Event.customDtor _ _ :: es => dtorCount p es
  | Event.fill _ _ _ :: es => dtorCount p es
  | Event.freed _ _ :: es => dtorCount p es

theorem dtorCount_append (p : Nat) (a b : List Event) :
    dtorCount p (a ++ b) = dtorCount p a + dtorCount p b := by
  induction a with
  | nil => simp [dtorCount]
  | cons e es ih => cases e <;> simp [dtorCount, ih, Nat.add_assoc]

/-- Running a destructor function records no `dtorInvoked` event. -/
theorem dtorCount_runDtorFn (p : Nat) (d : Dtor) (ptr size : Nat)
    (info : DtorInfo) (st : NRTState) :
    dtorCount p (runDtorFn d ptr size info st).events = dtorCount p st.events := by
  cases d <;> rcases info with _ | q | n | (_ | e) <;>
    simp [runDtorFn, NRT_Free, emitEvent, memsetBytes, dtorCount_append, dtorCount]

/-- Running a destructor function does not change the shutdown flag. -/
theorem runDtorFn_shutting (d : Dtor) (ptr size : Nat) (info : DtorInfo)
    (st : NRTState) :
    (runDtorFn d ptr size info st).msys.shutting = st.msys.shutting := by
  cases d <;> rcases info with _ | q | n | (_ | e) <;>
    simp [runDtorFn, NRT_Free, emitEvent, memsetBytes]

/-- Once the handle's record is gone, any further acquire/release on it
crashes, so a successful run must have an empty remaining trace. -/
theorem runRefOps_dead (p : Nat) (ops : List RefOp) (st st' : NRTState)
    (hdead : heapLookup st p = none)
    (hrun : runRefOps p ops st = Except.ok st') :
    ops = [] ∧ st' = st := by
  cases ops with
  | nil =>
    refine ⟨rfl, ?_⟩
    simp only [runRefOps] at hrun
    injection hrun with h
    exact h.symm
  | cons op ops =>
    cases op <;>
      simp [runRefOps, runRefOp, NRT_MemInfo_acquire, NRT_MemInfo_release,
        hdead] at hrun

/-- `NRT_MemInfo_acquire` on a live handle increments the refcount by
exactly one. -/
theorem acquire_ok (p : Nat) (st : NRTState) (mi : MemInfo)
    (hm : heapLookup st p = some mi) (hr : 0 < mi.refct) :
    NRT_MemInfo_acquire p st
      = Except.ok (heapSet st p { mi with refct := mi.refct + 1 }) := by
  simp only [NRT_MemInfo_acquire, hm]
  rw [if_neg (by omega)]

/-- `NRT_MemInfo_release` on a handle with refcount at least 2 decrements
the refcount by exactly one and does not destroy. -/
theorem release_alive (p : Nat) (st : NRTState) (mi : MemInfo)
    (hm : heapLookup st p = some mi) (h2 : 2 ≤ mi.refct) :
    NRT_MemInfo_release p st
      = Except.ok (heapSet st p { mi with refct := mi.refct - 1 }) := by
  simp only [NRT_MemInfo_release, hm]
  rw [if_neg (by omega), if_neg (by omega)]

/-- `NRT_MemInfo_release` on a handle with refcount 1 (destructor
attached, system not shutting down) destroys the handle: the record is
gone afterwards, exactly one more destructor invocation is recorded, and
the shutdown flag is unchanged. -/
theorem release_destroys (p : Nat) (st : NRTState) (mi : MemInfo) (d : Dtor)
    (hm : heapLookup st p = some mi) (h1 : mi.refct = 1) (hd : mi.dtor = some d)
    (hsh : st.msys.shutting = false) (st1 : NRTState)
    (hrun : NRT_MemInfo_release p st = Except.ok st1) :
    heapLookup st1 p = none ∧
    dtorCount p st1.events = dtorCount p st.events + 1 ∧
    st1.msys.shutting = false := by
  simp only [NRT_MemInfo_release, hm, h1] at hrun
  norm_num at hrun
  simp only [NRT_MemInfo_call_dtor, heapLookup_heapSet_self, heapSet_msys, hd,
    hsh] at hrun
  rw [if_neg (by simp)] at hrun
  cases hl : heapLookup (runDtorFn d mi.data mi.size mi.dtor_info
      (emitEvent (heapSet st p
        { refct := 0, dtor := some d, dtor_info := mi.dtor_info, data := mi.data,
          size := mi.size, external_allocator := mi.external_allocator })
        (Event.dtorInvoked p))) p with
  | none =>
    simp [NRT_MemInfo_destroy, NRT_dealloc, hl, Except.map] at hrun
  | some mi2 =>
    rw [destroy_of_lookup p _ mi2 hl, Except.ok.injEq] at hrun
    subst hrun
    refine ⟨heapLookup_filter_self _ _ _ _ p, ?_, ?_⟩
    · simp [dtorCount_append, dtorCount_runDtorFn, emitEvent, dtorCount]
    · simp [runDtorFn_shutting, hsh]

/-- Full specification of acquire/release traces over a live handle:
a successful run never over-releases; while the balance stays positive
the handle is live with refcount equal to the running balance and no new
destructor invocation; when the balance reaches zero the handle is
destroyed with exactly one more destructor invocation. -/
theorem runRefOps_spec (p : Nat) (d : Dtor) (ops : List RefOp) :
    ∀ (st : NRTState) (mi : MemInfo) (st' : NRTState),
      heapLookup st p = some mi → mi.dtor = some d → 0 < mi.refct →
      st.msys.shutting = false →
      runRefOps p ops st = Except.ok st' →
      (nRel ops ≤ nAcq ops + mi.refct) ∧
      (nRel ops < nAcq ops + mi.refct →
        ∃ mi', heapLookup st' p = some mi' ∧
          mi'.refct + nRel ops = nAcq ops + mi.refct ∧
          mi'.dtor = some d ∧
          dtorCount p st'.events = dtorCount p st.events) ∧
      (nRel ops = nAcq ops + mi.refct →
        heapLookup st' p = none ∧
        dtorCount p st'.events = dtorCount p st.events + 1) := by
  induction ops with
  | nil =>
    intro st mi st' hm hd hr hsh hrun
    simp only [runRefOps] at hrun
    injection hrun with hrun
    subst hrun
    refine ⟨by simp [nAcq, nRel], ?_, ?_⟩
    · intro _
      exact ⟨mi, hm, by simp [nAcq, nRel], hd, rfl⟩
    · intro h
      simp [nAcq, nRel] at h
      omega
  | cons op ops ih =>
    intro st mi st' hm hd hr hsh hrun
    cases op with
    | acq =>
      have hstep := acquire_ok p st mi hm hr
      rw [runRefOps, runRefOp, hstep] at hrun
      replace hrun : runRefOps p ops (heapSet st p { mi with refct := mi.refct + 1 })
          = Except.ok st' := hrun
      obtain ⟨ihb, ihAlive, ihDead⟩ :=
        ih (heapSet st p { mi with refct := mi.refct + 1 })
          { mi with refct := mi.refct + 1 } st'
          (heapLookup_heapSet_self _ _ _) hd (Nat.succ_pos _) hsh hrun
      have ihb0 : nRel ops ≤ nAcq ops + (mi.refct + 1) := ihb
      refine ⟨?_, ?_, ?_⟩
      · simp only [nAcq, nRel]
        omega
      · intro hlt
        simp only [nAcq, nRel] at hlt ⊢
        obtain ⟨mi', ha, hb, hc, hdcount⟩ :=
          ihAlive (show nRel ops < nAcq ops + (mi.refct + 1) by omega)
        have hb0 : mi'.refct + nRel ops = nAcq ops + (mi.refct + 1) := hb
        exact ⟨mi', ha, by omega, hc, hdcount⟩
      · intro heq
        simp only [nAcq, nRel] at heq
        exact ihDead (show nRel ops = nAcq ops + (mi.refct + 1) by omega)
    | rel =>
      by_cases h2 : 2 ≤ mi.refct
      · have hstep := release_alive p st mi hm h2
        rw [runRefOps, runRefOp, hstep] at hrun
        replace hrun : runRefOps p ops (heapSet st p { mi with refct := mi.refct - 1 })
            = Except.ok st' := hrun
        obtain ⟨ihb, ihAlive, ihDead⟩ :=
          ih (heapSet st p { mi with refct := mi.refct - 1 })
            { mi with refct := mi.refct - 1 } st'
            (heapLookup_heapSet_self _ _ _) hd
            (show 0 < mi.refct - 1 by omega) hsh hrun
        have ihb0 : nRel ops ≤ nAcq ops + (mi.refct - 1) := ihb
        refine ⟨?_, ?_, ?_⟩
        · simp only [nAcq, nRel]
          omega
        · intro hlt
          simp only [nAcq, nRel] at hlt ⊢
          obtain ⟨mi', ha, hb, hc, hdcount⟩ :=
            ihAlive (show nRel ops < nAcq ops + (mi.refct - 1) by omega)
          have hb0 : mi'.refct + nRel ops = nAcq ops + (mi.refct - 1) := hb
          exact ⟨mi', ha, by omega, hc, hdcount⟩
        · intro heq
          simp only [nAcq, nRel] at heq
          exact ihDead (show nRel ops = nAcq ops + (mi.refct - 1) by omega)
      · have h1 : mi.refct = 1 := by omega
        cases hstep : NRT_MemInfo_release p st with
        | error e =>
          rw [runRefOps, runRefOp, hstep] at hrun
          exact absurd hrun (by simp)
        | ok st1 =>
          obtain ⟨hnone, hcount, hshut⟩ :=
            release_destroys p st mi d hm h1 hd hsh st1 hstep
          rw [runRefOps, runRefOp, hstep] at hrun
          replace hrun : runRefOps p ops st1 = Except.ok st' := hrun
          obtain ⟨hops, hst⟩ := runRefOps_dead p ops st1 st' hnone hrun
          subst hops
          subst hst
          refine ⟨?_, ?_, ?_⟩
          · simp [nAcq, nRel]
            omega
          · intro hlt
            exfalso
            simp [nAcq, nRel] at hlt
            omega
          · intro _
            exact ⟨hnone, hcount⟩

/-- Claim C1: for a handle freshly initialized (refcount exactly 1, a
destructor attached, system not shutting down), over any successful
acquire/release trace: the trace never over-releases
(releases ≤ acquires + 1); while releases < acquires + 1 the handle is
live with refcount exactly `acquires + 1 - releases` (each acquire adds
exactly 1, each release subtracts exactly 1) and the destructor has not
been invoked; and on the release that takes the refcount from 1 to 0 the
handle is destroyed with the destructor invoked exactly once — never
earlier and never more than once. -/
theorem claim1_refcount_lifecycle (p : Nat) (d : Dtor) (ops : List RefOp)
    (st st' : NRTState) (mi : MemInfo)
    (hm : heapLookup st p = some mi) (h1 : mi.refct = 1) (hd : mi.dtor = some d)
    (hsh : st.msys.shutting = false)
    (hrun : runRefOps p ops st = Except.ok st') :
    (nRel ops ≤ nAcq ops + 1) ∧
    (nRel ops < nAcq ops + 1 →
      ∃ mi', heapLookup st' p = some mi' ∧
        mi'.refct + nRel ops = nAcq ops + 1 ∧
        dtorCount p st'.events = dtorCount p st.events) ∧
    (nRel ops = nAcq ops + 1 →
      heapLookup st' p = none ∧
      dtorCount p st'.events = dtorCount p st.events + 1) := by
  have h := runRefOps_spec p d ops st mi st' hm hd (by omega) hsh hrun
  rw [h1] at h
  refine ⟨h.1, fun hlt => ?_, h.2.2⟩
  obtain ⟨mi', ha, hb, _, hdcount⟩ := h.2.1 hlt
  exact ⟨mi', ha, hb, hdcount⟩

/-- A live state holding the refcount-1 handle `c8Mi` at address 100
(system not shutting down). -/
def c1St : NRTState := { freshSt with heap := [(100, c8Mi)] }

/-- Final state of the concrete trace acquire, release, release. -/
def c1Final : NRTState :=
  exOkSt (runRefOps 100 [RefOp.acq, RefOp.rel, RefOp.rel] c1St)

/-- Witness for C1: the balanced concrete trace destroys the handle on
its final release with exactly one destructor invocation. -/
theorem claim1_witness :
    heapLookup c1Final 100 = none ∧
    dtorCount 100 c1Final.events = dtorCount 100 c1St.events + 1 := by
  have h := claim1_refcount_lifecycle 100 (Dtor.custom 7)
    [RefOp.acq, RefOp.rel, RefOp.rel] c1St c1Final c8Mi
    (by rfl) (by rfl) (by rfl) (by rfl) (by rfl)
  exact h.2.2 (by rfl)

/-!
## Claim C5: data pointer non-null while refcount positive
-/

/-- Public operations of the runtime considered by the invariant claim. -/
inductive Op where
  | opAlloc (size : Nat)
  | opAllocSafe (size : Nat) (d : Option Nat)
  | opAllocAligned (size align : Nat)
  | opNewVarsize (size : Nat)
  | opManage (data dtor : Nat)
  | opAcquire (p : Nat)
  | opRelease (p : Nat)
  | opVarsizeAlloc (p size : Nat)
  | opVarsizeRealloc (p size : Nat)

/-- Run one public operation (discarding the returned pointer). -/
def runOp (op : Op) (st : NRTState) : Except Crash NRTState :=
  match op with
  | Op.opAlloc s => (NRT_MemInfo_alloc s st).map Prod.snd
  | Op.opAllocSafe s d => (NRT_MemInfo_alloc_dtor_safe s d st).map Prod.snd
  | Op.opAllocAligned s a => (NRT_MemInfo_alloc_aligned s a st).map Prod.snd
  | Op.opNewVarsize s => (NRT_MemInfo_new_varsize s st).map Prod.snd
  | Op.opManage dp dt => (nrt_manage_memory dp dt st).map Prod.snd
  | Op.opAcquire p => NRT_MemInfo_acquire p st
  | Op.opRelease p => NRT_MemInfo_release p st
  | Op.opVarsizeAlloc p s => (NRT_MemInfo_varsize_alloc p s st).map Prod.snd
  | Op.opVarsizeRealloc p s => (NRT_MemInfo_varsize_realloc p s st).map Prod.snd

/-- Run a list of public operations. -/
def runOps : List Op → NRTState → Except Crash NRTState
  | [], st => Except.ok st
  | op :: ops, st =>
    match runOp op st with
    | Except.error e => Except.error e
    | Except.ok st1 => runOps ops st1

/-- Side condition on operations: foreign memory wrapped by
`nrt_manage_memory` must come with a non-null data pointer. -/
def goodOp : Op → Prop
  | Op.opManage dp _ => dp ≠ 0
  | _ => True

/-- The invariant, over heap entry lists: every live record (positive
refcount) has a non-null data pointer. -/
def InvHeap (l : List (Nat × MemInfo)) : Prop :=
  ∀ e ∈ l, 0 < e.2.refct → e.2.data ≠ 0

/-- The invariant on states. -/
def NRTInv (st : NRTState) : Prop := InvHeap st.heap

theorem invHeap_filter (l : List (Nat × MemInfo)) (q : Nat × MemInfo → Bool)
    (h : InvHeap l) : InvHeap (l.filter q) :=
  fun e he => h e (List.mem_filter.mp he).1

theorem inv_heapSet (st : NRTState) (p : Nat) (mi : MemInfo)
    (hmi : 0 < mi.refct → mi.data ≠ 0) (h : NRTInv st) : NRTInv (heapSet st p mi) := by
  intro e he
  rcases List.mem_cons.mp he with rfl | he'
  · exact hmi
  · exact invHeap_filter _ _ h e he'

theorem inv_runDtorFn (d : Dtor) (ptr size : Nat) (info : DtorInfo)
    (st : NRTState) (h : NRTInv st) : NRTInv (runDtorFn d ptr size info st) := by
  cases d <;> rcases info with _ | q | n | (_ | e) <;>
    first
      | exact h
      | exact invHeap_filter _ _ h

/-- Running a destructor function does not change the bound allocator. -/
theorem runDtorFn_allocator (d : Dtor) (ptr size : Nat) (info : DtorInfo)
    (st : NRTState) :
    (runDtorFn d ptr size info st).msys.allocator = st.msys.allocator := by
  cases d <;> rcases info with _ | q | n | (_ | e) <;>
    simp [runDtorFn, NRT_Free, emitEvent, memsetBytes]

theorem heapLookup_mem (st : NRTState) (p : Nat) (mi : MemInfo)
    (h : heapLookup st p = some mi) : ∃ e, e ∈ st.heap ∧ e.2 = mi := by
  simp only [heapLookup] at h
  rcases Option.map_eq_some'.mp h with ⟨e, hfind, hsnd⟩
  exact ⟨e, List.mem_of_find?_eq_some hfind, hsnd⟩

theorem inv_lookup (st : NRTState) (p : Nat) (mi : MemInfo) (hinv : NRTInv st)
    (h : heapLookup st p = some mi) (hr : 0 < mi.refct) : mi.data ≠ 0 := by
  obtain ⟨e, he, h2⟩ := heapLookup_mem st p mi h
  subst h2
  exact hinv e he hr

theorem map_snd_ok (x : Except Crash (Nat × NRTState)) (st' : NRTState)
    (h : x.map Prod.snd = Except.ok st') : ∃ n, x = Except.ok (n, st') := by
  cases x with
  | error e => simp [Except.map] at h
  | ok r =>
    simp only [Except.map] at h
    injection h with h2
    exact ⟨r.1, by rw [← h2]⟩

theorem map_pair_ok (x : Except Crash NRTState) (m n : Nat) (st' : NRTState)
    (h : x.map (fun s => (m, s)) = Except.ok (n, st')) : x = Except.ok st' := by
  cases x with
  | error e => simp [Except.map] at h
  | ok s =>
    simp only [Except.map, Except.ok.injEq, Prod.mk.injEq] at h
    rw [h.2]

/-- `NRT_MemInfo_init` with a non-null data pointer preserves the
invariant (the fresh record is live with non-null data). -/
theorem inv_init (mi data size : Nat) (dtor : Option Dtor) (info : DtorInfo)
    (ea : Option NRT_ExternalAllocator) (st st' : NRTState)
    (h : NRT_MemInfo_init mi data size dtor info ea st = Except.ok st')
    (hdata : data ≠ 0) (hinv : NRTInv st) :
    NRTInv st' ∧ st'.msys.allocator = st.msys.allocator := by
  simp only [NRT_MemInfo_init] at h
  by_cases hz : mi = 0
  · rw [if_pos hz] at h
    exact absurd h (by simp)
  · rw [if_neg hz] at h
    injection h with h
    subst h
    exact ⟨inv_heapSet _ _ _ (fun _ => hdata) hinv, rfl⟩

/-- `NRT_MemInfo_new` with a non-null data pointer preserves the
invariant. -/
theorem inv_new (data size : Nat) (dtor : Option Dtor) (info : DtorInfo)
    (st : NRTState) (n : Nat) (st' : NRTState)
    (h : NRT_MemInfo_new data size dtor info st = Except.ok (n, st'))
    (hdata : data ≠ 0) (hinv : NRTInv st) :
    NRTInv st' ∧ st'.msys.allocator = st.msys.allocator := by
  simp only [NRT_MemInfo_new, NRT_Allocate, NRT_Allocate_External] at h
  have h2 := map_pair_ok _ _ _ _ h
  have h3 := inv_init (st.msys.allocator.malloc sizeofMemInfo) data size dtor info
    none { st with msys := { st.msys with stats_alloc := st.msys.stats_alloc + 1 } }
    st' h2 hdata hinv
  exact ⟨h3.1, h3.2⟩

/-- `NRT_MemInfo_destroy` preserves the invariant (it only removes the
record). -/
theorem inv_destroy (p : Nat) (st st' : NRTState) (hinv : NRTInv st)
    (hrun : NRT_MemInfo_destroy p st = Except.ok st') :
    NRTInv st' ∧ st'.msys.allocator = st.msys.allocator := by
  cases hl : heapLookup st p with
  | none =>
    simp [NRT_MemInfo_destroy, NRT_dealloc, hl, Except.map] at hrun
  | some mi =>
    simp only [NRT_MemInfo_destroy, NRT_dealloc, hl] at hrun
    cases hext : mi.external_allocator with
    | some ea =>
      rw [hext] at hrun
      simp only [Except.map, Except.ok.injEq] at hrun
      subst hrun
      exact ⟨invHeap_filter _ _ hinv, rfl⟩
    | none =>
      rw [hext] at hrun
      simp only [Except.map, NRT_Free, Except.ok.injEq] at hrun
      subst hrun
      exact ⟨invHeap_filter _ _ hinv, rfl⟩

/-- `NRT_MemInfo_call_dtor` preserves the invariant. -/
theorem inv_call_dtor (p : Nat) (st st' : NRTState) (hinv : NRTInv st)
    (hrun : NRT_MemInfo_call_dtor p st = Except.ok st') :
    NRTInv st' ∧ st'.msys.allocator = st.msys.allocator := by
  simp only [NRT_MemInfo_call_dtor] at hrun
  cases hl : heapLookup st p with
  | none =>
    simp only [hl] at hrun
    exact absurd hrun (by simp)
  | some mi =>
    simp only [hl] at hrun
    cases hdt : mi.dtor with
    | none =>
      simp only [hdt] at hrun
      replace hrun : NRT_MemInfo_destroy p st = Except.ok st' := hrun
      exact inv_destroy p st st' hinv hrun
    | some d =>
      simp only [hdt] at hrun
      replace hrun : NRT_MemInfo_destroy p
          (if st.msys.shutting = true then st
           else runDtorFn d mi.data mi.size mi.dtor_info
             (emitEvent st (Event.dtorInvoked p))) = Except.ok st' := hrun
      by_cases hshut : st.msys.shutting = true
      · rw [if_pos hshut] at hrun
        exact inv_destroy p st st' hinv hrun
      · rw [if_neg hshut] at hrun
        have h2 := inv_destroy p (runDtorFn d mi.data mi.size mi.dtor_info
            (emitEvent st (Event.dtorInvoked p))) st'
          (inv_runDtorFn d mi.data mi.size mi.dtor_info
            (emitEvent st (Event.dtorInvoked p)) hinv) hrun
        exact ⟨h2.1, by rw [h2.2, runDtorFn_allocator, emitEvent_msys]⟩

/-- One public operation preserves the invariant and the allocator
binding, provided the bound allocator never returns NULL and wrapped
foreign data pointers are non-null. -/
theorem runOp_inv (A : AllocatorFns)
    (hA1 : ∀ s, A.malloc s ≠ 0) (hA2 : ∀ q s, A.realloc q s ≠ 0)
    (op : Op) (st st' : NRTState)
    (hg : goodOp op) (hall : st.msys.allocator = A) (hinv : NRTInv st)
    (hrun : runOp op st = Except.ok st') :
    NRTInv st' ∧ st'.msys.allocator = A := by
  cases op with
  | opAlloc s =>
    simp only [runOp] at hrun
    obtain ⟨n, hv⟩ := map_snd_ok _ _ hrun
    simp only [NRT_MemInfo_alloc, nrt_allocate_meminfo_and_data,
      NRT_Allocate_External] at hv
    have h2 := map_pair_ok _ _ _ _ hv
    have h3 := inv_init _ _ s none DtorInfo.null none _ st' h2
      (by simp only [sizeofMemInfo]; omega) hinv
    exact ⟨h3.1, by rw [h3.2]; exact hall⟩
  | opAllocSafe s d =>
    simp only [runOp] at hrun
    obtain ⟨n, hv⟩ := map_snd_ok _ _ hrun
    simp only [NRT_MemInfo_alloc_dtor_safe, nrt_allocate_meminfo_and_data,
      NRT_Allocate_External] at hv
    have h2 := map_pair_ok _ _ _ _ hv
    have h3 := inv_init _ _ s (some Dtor.customSafe) (DtorInfo.dtorFn d) none _ st'
      h2 (by simp only [sizeofMemInfo]; omega) hinv
    exact ⟨h3.1, by rw [h3.2]; exact hall⟩
  | opAllocAligned s a =>
    simp only [runOp] at hrun
    obtain ⟨n, hv⟩ := map_snd_ok _ _ hrun
    simp only [NRT_MemInfo_alloc_aligned, nrt_allocate_meminfo_and_data_align,
      nrt_allocate_meminfo_and_data, NRT_Allocate_External] at hv
    have h2 := map_pair_ok _ _ _ _ hv
    have h3 := inv_init _ _ s none DtorInfo.null none _ st' h2
      (by simp only [sizeofMemInfo]; omega) hinv
    exact ⟨h3.1, by rw [h3.2]; exact hall⟩
  | opNewVarsize s =>
    simp only [runOp] at hrun
    obtain ⟨n, hv⟩ := map_snd_ok _ _ hrun
    simp only [NRT_MemInfo_new_varsize, NRT_Allocate, NRT_Allocate_External] at hv
    by_cases hz : st.msys.allocator.malloc s = 0
    · rw [if_pos hz] at hv
      injection hv with h2
      rw [Prod.mk.injEq] at h2
      obtain ⟨_, h4⟩ := h2
      subst h4
      exact ⟨hinv, hall⟩
    · rw [if_neg hz] at hv
      have h3 := inv_new _ s (some Dtor.varsize) DtorInfo.null _ n st' hv hz hinv
      exact ⟨h3.1, by rw [h3.2]; exact hall⟩
  | opManage dp dt =>
    simp only [runOp, nrt_manage_memory] at hrun
    obtain ⟨n, hv⟩ := map_snd_ok _ _ hrun
    have h3 := inv_new dp 0 (some Dtor.manageMemory) (DtorInfo.dtorFn (some dt))
      st n st' hv hg hinv
    exact ⟨h3.1, by rw [h3.2]; exact hall⟩
  | opAcquire p =>
    simp only [runOp, NRT_MemInfo_acquire] at hrun
    cases hl : heapLookup st p with
    | none =>
      simp only [hl] at hrun
      exact absurd hrun (by simp)
    | some mi =>
      simp only [hl] at hrun
      by_cases hz : mi.refct = 0
      · rw [if_pos hz] at hrun
        exact absurd hrun (by simp)
      · rw [if_neg hz] at hrun
        injection hrun with h2
        subst h2
        exact ⟨inv_heapSet _ _ _
          (fun _ => inv_lookup st p mi hinv hl (by omega)) hinv, hall⟩
  | opRelease p =>
    simp only [runOp, NRT_MemInfo_release] at hrun
    cases hl : heapLookup st p with
    | none =>
      simp only [hl] at hrun
      exact absurd hrun (by simp)
    | some mi =>
      simp only [hl] at hrun
      by_cases hz : mi.refct = 0
      · rw [if_pos hz] at hrun
        exact absurd hrun (by simp)
      · rw [if_neg hz] at hrun
        by_cases h1 : mi.refct - 1 = 0
        · rw [if_pos h1] at hrun
          have hc := inv_call_dtor p (heapSet st p { mi with refct := mi.refct - 1 })
            st' (inv_heapSet _ _ _
              (fun h0 => absurd (show (0:Nat) < mi.refct - 1 from h0) (by omega))
              hinv) hrun
          exact ⟨hc.1, by rw [hc.2]; exact hall⟩
        · rw [if_neg h1] at hrun
          injection hrun with h2
          subst h2
          exact ⟨inv_heapSet _ _ _
            (fun _ => inv_lookup st p mi hinv hl (by omega)) hinv, hall⟩
  | opVarsizeAlloc p s =>
    simp only [runOp] at hrun
    obtain ⟨n, hv⟩ := map_snd_ok _ _ hrun
    simp only [NRT_MemInfo_varsize_alloc, NRT_Allocate, NRT_Allocate_External] at hv
    cases hl : heapLookup st p with
    | none =>
      simp only [hl] at hv
      exact absurd hv (by simp)
    | some mi =>
      simp only [hl] at hv
      by_cases hdc : mi.dtor ≠ some Dtor.varsize
      · rw [if_pos hdc] at hv
        exact absurd hv (by simp)
      · rw [if_neg hdc] at hv
        have hz : st.msys.allocator.malloc s ≠ 0 := by
          rw [hall]
          exact hA1 s
        rw [if_neg hz] at hv
        injection hv with h2
        rw [Prod.mk.injEq] at h2
        obtain ⟨_, h4⟩ := h2
        subst h4
        exact ⟨inv_heapSet _ _ _ (fun _ => hz) hinv, hall⟩
  | opVarsizeRealloc p s =>
    simp only [runOp] at hrun
    obtain ⟨n, hv⟩ := map_snd_ok _ _ hrun
    simp only [NRT_MemInfo_varsize_realloc, NRT_Reallocate] at hv
    cases hl : heapLookup st p with
    | none =>
      simp only [hl] at hv
      exact absurd hv (by simp)
    | some mi =>
      simp only [hl] at hv
      by_cases hdc : mi.dtor ≠ some Dtor.varsize
      · rw [if_pos hdc] at hv
        exact absurd hv (by simp)
      · rw [if_neg hdc] at hv
        have hz : st.msys.allocator.realloc mi.data s ≠ 0 := by
          rw [hall]
          exact hA2 mi.data s
        rw [if_neg hz] at hv
        injection hv with h2
        rw [Prod.mk.injEq] at h2
        obtain ⟨_, h4⟩ := h2
        subst h4
        exact ⟨inv_heapSet _ _ _ (fun _ => hz) hinv, hall⟩

/-- Invariant preservation over operation sequences. -/
theorem runOps_inv (A : AllocatorFns)
    (hA1 : ∀ s, A.malloc s ≠ 0) (hA2 : ∀ q s, A.realloc q s ≠ 0)
    (ops : List Op) :
    ∀ (st st' : NRTState), (∀ op ∈ ops, goodOp op) →
      st.msys.allocator = A → NRTInv st →
      runOps ops st = Except.ok st' → NRTInv st' := by
  induction ops with
  | nil =>
    intro st st' _ _ hinv hrun
    simp only [runOps] at hrun
    injection hrun with h
    subst h
    exact hinv
  | cons op ops ih =>
    intro st st' hg hall hinv hrun
    cases hstep : runOp op st with
    | error e =>
      rw [runOps, hstep] at hrun
      exact absurd hrun (by simp)
    | ok st1 =>
      rw [runOps, hstep] at hrun
      replace hrun : runOps ops st1 = Except.ok st' := hrun
      have h2 := runOp_inv A hA1 hA2 op st st1
        (hg op (List.mem_cons_self op ops)) hall hinv hstep
      exact ih st1 st' (fun o ho => hg o (List.mem_cons_of_mem op ho)) h2.2 h2.1 hrun

/-- The varsize handle after its payload was freed via varsize_free:
still live (refcount 1) but with a NULL data pointer. -/
def varsizeMiNulled : MemInfo :=
  { refct := 1, dtor := some Dtor.varsize, dtor_info := DtorInfo.null,
    data := 0, size := 16, external_allocator := none }

/-- State after calling `NRT_MemInfo_varsize_free` on the live varsize
handle at address 100 with its own payload pointer 500. -/
def c5BrokenSt : NRTState :=
  exOkSt (NRT_MemInfo_varsize_free 100 500
    { freshSt with heap := [(100, varsizeMi)] })

/-- Counterexample to claim C5 as stated: `NRT_MemInfo_varsize_free` on a
live variable-size handle (refcount 1) frees the payload and nulls the
handle's data pointer, leaving a live handle with a NULL data pointer, so
the invariant is violated. -/
theorem claim5_counterexample :
    ((heapLookup c5BrokenSt 100).getD miDefault).refct = 1 ∧
    ((heapLookup c5BrokenSt 100).getD miDefault).data = 0 ∧
    ¬ NRTInv c5BrokenSt := by
  refine ⟨rfl, rfl, ?_⟩
  intro h
  have hmem : ((100 : Nat), varsizeMiNulled) ∈ c5BrokenSt.heap := by
    rw [show c5BrokenSt.heap = [(100, varsizeMiNulled)] from rfl]
    exact List.mem_singleton.mpr rfl
  exact h _ hmem (by decide) rfl

/-- Claim C5 (amended): for every handle reachable through the public
operations — construction (plain, safe, aligned, variable-size, foreign
wrap with a non-null pointer), acquire, release, and successful
variable-size resizes — the data pointer is non-null whenever the
refcount is positive, provided the bound allocator never returns NULL.
The operations `NRT_MemInfo_varsize_free` and failed varsize resizes are
excluded: they null the data pointer of a live handle. -/
theorem claim5_data_nonnull_invariant (ops : List Op) (st0 st' : NRTState)
    (hA1 : ∀ s, st0.msys.allocator.malloc s ≠ 0)
    (hA2 : ∀ q s, st0.msys.allocator.realloc q s ≠ 0)
    (hg : ∀ op ∈ ops, goodOp op)
    (hinv : NRTInv st0)
    (hrun : runOps ops st0 = Except.ok st') :
    NRTInv st' :=
  runOps_inv st0.msys.allocator hA1 hA2 ops st0 st' hg rfl hinv hrun

/-- An injective-enough concrete allocator for the C5 witness. -/
def c5AllocFns : AllocatorFns :=
  { mallocId := 7, reallocId := 8, freeId := 9,
    malloc := fun s => s + 1000, realloc := fun q s => q + s + 1 }

/-- Fresh state bound to that allocator. -/
def c5St0 : NRTState :=
  { freshSt with msys := { freshSt.msys with allocator := c5AllocFns } }

/-- A concrete public-operation trace: varsize construction (handle lands
at address 1048), acquire, successful varsize resize, release. -/
def c5Ops : List Op :=
  [Op.opNewVarsize 16, Op.opAcquire 1048, Op.opVarsizeAlloc 1048 64,
   Op.opRelease 1048]

/-- Final state of the concrete trace. -/
def c5Final : NRTState := exOkSt (runOps c5Ops c5St0)

/-- Witness for the amended C5 at the concrete trace. -/
theorem claim5_witness : NRTInv c5Final :=
  claim5_data_nonnull_invariant c5Ops c5St0 c5Final
    (fun s => by show s + 1000 ≠ 0; omega)
    (fun q s => by show q + s + 1 ≠ 0; omega)
    (by simp [c5Ops, goodOp])
    (fun e he => absurd he (List.not_mem_nil e))
    (by rfl)
